import Mathlib

/-
Verification of the avatar-management service (src/app/main.py) against its
natural-language specification.  The Python module is shallowly embedded:
the in-memory user dictionary and the on-disk avatar directory become
association lists, byte strings become lists of naturals, and the mutation
steps of `upload_avatar` (delete old file, write new file, update pointer)
become an explicit event list so that intermediate states are observable.
-/

namespace AvatarApp

/-- Raw byte content of a file, one natural per byte. -/
abbrev Bytes := List Nat

/-- A user record, mirroring the entries of the `USERS` dictionary and the
`User` pydantic model: `id`, `username`, `avatar_filename`. -/
structure User where
  id : String
  username : String
  avatar_filename : Option String
deriving DecidableEq, Repr

/-- An incoming multipart file: declared file name, declared media type, and
the bytes returned by `await file.read()`. -/
structure UploadFile where
  filename : String
  content_type : String
  contents : Bytes
deriving DecidableEq, Repr

/-- The constant `ALLOWED_MIME_TYPES` from main.py line 13: the set
`{"image/jpeg", "image/png"}`. -/
def ALLOWED_MIME_TYPES : List String := ["image/jpeg", "image/png"]

/-- Python's `in` on a list of strings, as an executable Boolean. -/
def memS (x : String) : List String → Bool
  | [] => false
  | y :: rest => if y = x then true else memS x rest

/-- ASCII lower-casing of one character, as `str.lower` performs it on the
ASCII range (the only range that can match the accepted extension list). -/
def lowerChar (c : Char) : Char :=
  if 'A' ≤ c ∧ c ≤ 'Z' then Char.ofNat (c.toNat + 32) else c

/-- Python's `str.lower` on a whole string. -/
def strLower (s : String) : String := String.mk (s.data.map lowerChar)

/-- The constant `MAX_AVATAR_SIZE = 2 * 1024 * 1024` from main.py line 14. -/
def MAX_AVATAR_SIZE : Nat := 2 * 1024 * 1024

/-- First-match lookup in an association list; the Python dictionaries have
unique keys, and first-match lookup together with first-match update below
realises exactly the dictionary semantics. -/
def lookupA {β : Type} : List (String × β) → String → Option β
  | [], _ => none
  | (k, v) :: rest, key => if k = key then some v else lookupA rest key

/-- The write `USERS[uid]["avatar_filename"] = v`: update the avatar pointer of the
first (unique) entry with the given key, leaving everything else untouched. -/
def setAvatarL : List (String × User) → String → Option String → List (String × User)
  | [], _, _ => []
  | (k, r) :: rest, uid, v =>
    if k = uid then (k, { r with avatar_filename := v }) :: rest
    else (k, r) :: setAvatarL rest uid v

/-- Python's `os.remove` on the avatar directory: drop every entry with the given
name (names are unique, and deleting a missing file is modelled as a no-op,
matching the `try: os.remove .. except: pass` in main.py lines 118-121). -/
def eraseBlob : List (String × Bytes) → String → List (String × Bytes)
  | [], _ => []
  | (k, v) :: rest, n =>
    if k = n then eraseBlob rest n else (k, v) :: eraseBlob rest n

/-- The whole mutable state of the service: the `USERS` dictionary and the
contents of the `./avatars` directory keyed by file name. -/
structure SysState where
  users : List (String × User)
  storage : List (String × Bytes)
deriving DecidableEq, Repr

/-- The initial `USERS` dictionary from main.py lines 44-47. -/
def USERS : List (String × User) :=
  [("u1", ⟨"u1", "alice", none⟩), ("u2", ⟨"u2", "bob", none⟩)]

/-- The initial state: the two pre-provisioned users and an empty avatar
directory. -/
def initState : SysState := ⟨USERS, []⟩

/-- Index of the last occurrence of a character in a list, if any. -/
def lastIdxOf (c : Char) (l : List Char) : Option Nat :=
  (l.reverse.findIdx? (fun x => x == c)).map (fun i => l.length - 1 - i)

/-- The extension component of `os.path.splitext(p)` (posix rules): the
slice from the last dot to the end, provided that dot lies inside the base
name and some character between the start of the base name and the dot is
not itself a dot (so dotfiles such as `.bashrc` carry no extension). -/
def splitext_ext (s : String) : String :=
  let l := s.data
  let start := match lastIdxOf '/' l with
    | some i => i + 1
    | none => 0
  match lastIdxOf '.' l with
  | none => ""
  | some d =>
    if start ≤ d ∧ ((l.take d).drop start).any (fun c => c ≠ '.') then
      String.mk (l.drop d)
    else ""

/-- The expression `ext if ext in [".png", ".jpg", ".jpeg"] else (".jpg" if
content_type=="image/jpeg" else ".png")` applied to
`ext = os.path.splitext(filename)[1].lower()`, main.py lines 109-110. -/
def safe_ext (filename content_type : String) : String :=
  let ext := strLower (splitext_ext filename)
  if memS ext [".png", ".jpg", ".jpeg"] then ext
  else if content_type = "image/jpeg" then ".jpg" else ".png"

/-- Python's `str.endswith`: the candidate tail is a suffix of the string. -/
def strEndsWith (s suf : String) : Bool := decide (suf.data <:+ s.data)

/-- The read of `USERS[uid]["avatar_filename"]` before the write, main.py line 115. -/
def oldPointer (st : SysState) (uid : String) : Option String :=
  match lookupA st.users uid with
  | some u => u.avatar_filename
  | none => none

/-- The persistent-mutation steps `upload_avatar` can perform, in the order
the code performs them: delete a file, write a file, update a pointer. -/
inductive Ev where
  | evict (name : String)
  | storeBlob (name : String) (contents : Bytes)
  | setPtr (uid : String) (name : Option String)
deriving DecidableEq, Repr

/-- Effect of a single mutation step on the state.  A `storeBlob` replaces
any previous file of the same name, matching `open(path, "wb")`. -/
def applyEv (s : SysState) : Ev → SysState
  | .evict n => { s with storage := eraseBlob s.storage n }
  | .storeBlob n c => { s with storage := (n, c) :: eraseBlob s.storage n }
  | .setPtr uid v => { s with users := setAvatarL s.users uid v }

/-- Run a list of mutation steps from a state. -/
def apply_events (st : SysState) (evs : List Ev) : SysState :=
  evs.foldl applyEv st

/-- The dependency `get_current_user`: the bearer token is looked up directly as a user id
(main.py lines 64-70); `none` models the 401 `HTTPException`. -/
def get_current_user (st : SysState) (token : String) : Option User :=
  lookupA st.users token

/-- The helper `get_user_by_id` (main.py lines 73-80); `none` models the 404. -/
def get_user_by_id (st : SysState) (user_id : String) : Option User :=
  lookupA st.users user_id

/-- The error outcomes of the upload endpoint: 401, 400 and 413. -/
inductive UploadError where
  | Unauthenticated
  | InvalidMediaType
  | PayloadTooLarge
deriving DecidableEq, Repr

deriving instance DecidableEq for Except

/-- The 201 response body of the upload endpoint (main.py lines 55-58). -/
structure AvatarUploadResponse where
  message : String
  avatar_url : String
  user_id : String
deriving DecidableEq, Repr

/-- The endpoint `upload_avatar` (main.py lines 94-131).  `tok` stands for the value of
`uuid4().hex`, supplied as a parameter since it is the only source of
randomness.  The result is the list of persistent-mutation events the call
performs, in program order, together with the HTTP outcome. -/
def upload_avatar_run (st : SysState) (token : String) (file : UploadFile)
    (tok : String) : List Ev × Except UploadError AvatarUploadResponse :=
  match get_current_user st token with
  | none => ([], .error .Unauthenticated)
  | some current_user =>
    if memS file.content_type ALLOWED_MIME_TYPES then
      if file.contents.length > MAX_AVATAR_SIZE then
        ([], .error .PayloadTooLarge)
      else
        let filename :=
          current_user.id ++ "_" ++ tok ++ safe_ext file.filename file.content_type
        let old_filename : Option String := oldPointer st current_user.id
        let evs :=
          (match old_filename with
            | some old => [Ev.evict old]
            | none => []) ++
          [Ev.storeBlob filename file.contents,
           Ev.setPtr current_user.id (some filename)]
        (evs, .ok ⟨"Avatar uploaded successfully.",
                   "/users/" ++ current_user.id ++ "/avatar", current_user.id⟩)
    else ([], .error .InvalidMediaType)

/-- The state after an `upload_avatar` call (unchanged when it raised). -/
def upload_final (st : SysState) (token : String) (file : UploadFile)
    (tok : String) : SysState :=
  apply_events st (upload_avatar_run st token file tok).1

/-- Every state passed through during an `upload_avatar` call: the initial
state followed by the state after each mutation event. -/
def uploadTrace (st : SysState) (token : String) (file : UploadFile)
    (tok : String) : List SysState :=
  ((upload_avatar_run st token file tok).1).scanl applyEv st

/-- The error outcomes of the retrieval endpoint, all rendered as 404 but
with three distinct detail messages (main.py lines 76-79, 149, 152). -/
inductive RetrieveError where
  | UserNotFound
  | NoAvatarSet
  | BlobMissing
deriving DecidableEq, Repr

/-- The 200 response of the retrieval endpoint: body bytes, inferred
`Content-Type`, and the blob file name carried in `Content-Disposition`. -/
structure AvatarResponse where
  contents : Bytes
  media_type : String
  filename : String
deriving DecidableEq, Repr

/-- The endpoint `get_user_avatar` (main.py lines 145-160).  `if not filename` is
Python-falsy, so both a missing pointer and an empty-string pointer yield
the "User has no avatar." 404. -/
def get_user_avatar (st : SysState) (user_id : String) :
    Except RetrieveError AvatarResponse :=
  match get_user_by_id st user_id with
  | none => .error .UserNotFound
  | some user =>
    match user.avatar_filename with
    | none => .error .NoAvatarSet
    | some filename =>
      if filename = "" then .error .NoAvatarSet
      else
        match lookupA st.storage filename with
        | none => .error .BlobMissing
        | some contents =>
          let mimetype :=
            if strEndsWith filename ".png" then "image/png" else "image/jpeg"
          .ok ⟨contents, mimetype, filename⟩

/-- The fresh blob name `f"{current_user.id}_{uuid4().hex}{safe_ext}"`
built at main.py line 111. -/
def newName (u : User) (file : UploadFile) (tok : String) : String :=
  u.id ++ "_" ++ tok ++ safe_ext file.filename file.content_type

/-- The directory/storage consistency invariant the specification demands:
every set avatar pointer references a blob present in storage. -/
def pointerOkB (s : SysState) : Bool :=
  s.users.all (fun p =>
    match p.2.avatar_filename with
    | none => true
    | some f => (lookupA s.storage f).isSome)

/-- A state in which `u1` already has an avatar whose blob is present. -/
def st1 : SysState :=
  ⟨[("u1", ⟨"u1", "alice", some "u1_old.png"⟩), ("u2", ⟨"u2", "bob", none⟩)],
   [("u1_old.png", [7])]⟩

/-- A state whose directory records a blob that is absent from storage: a
stale pointer, the consistency fault the specification calls out. -/
def st2 : SysState :=
  ⟨[("u1", ⟨"u1", "alice", some "u1_gone.png"⟩)], []⟩

/-- Sequential uploads through the same credential: each call starts from
the state the previous call left behind.  The second component of each pair
is that call's `uuid4().hex` value. -/
def uploadSeq (st : SysState) (token : String) :
    List (UploadFile × String) → SysState
  | [] => st
  | (f, t) :: rest => uploadSeq (upload_final st token f t) token rest

/-- The blob name a successful upload produces for a user with id `uid`. -/
def nameAt (uid : String) (p : UploadFile × String) : String :=
  uid ++ "_" ++ p.2 ++ safe_ext p.1.filename p.1.content_type

/-- A lower-case hexadecimal digit, the alphabet of `uuid4().hex`. -/
def isHexChar (c : Char) : Bool :=
  decide (('0' ≤ c ∧ c ≤ '9') ∨ ('a' ≤ c ∧ c ≤ 'f'))

/-- Two concrete uploads with fresh 32-character hex tokens, used to
exercise the sequential-upload theorem. -/
def filesW : List (UploadFile × String) :=
  [(⟨"a.png", "image/png", [1]⟩, "0123456789abcdef0123456789abcdef"),
   (⟨"b.jpg", "image/jpeg", [2]⟩, "00112233445566778899aabbccddeeff")]

example : splitext_ext "pic.PNG" = ".PNG" := by decide
example : splitext_ext ".bashrc" = "" := by decide
example : splitext_ext "a.b.c" = ".c" := by decide
example : splitext_ext "noext" = "" := by decide
example : splitext_ext "dir/file.txt" = ".txt" := by decide
example : splitext_ext "a." = "." := by decide
example : splitext_ext "..." = "" := by decide
example : safe_ext "PIC.PNG" "image/png" = ".png" := by decide
example : safe_ext "x.gif" "image/jpeg" = ".jpg" := by decide
example : safe_ext "x" "image/png" = ".png" := by decide
example :
    (upload_avatar_run initState "u1" ⟨"a.png", "image/png", [1, 2]⟩ "ab").1 =
      [Ev.storeBlob "u1_ab.png" [1, 2], Ev.setPtr "u1" (some "u1_ab.png")] := by
  decide
example :
    get_user_avatar (upload_final initState "u1" ⟨"a.png", "image/png", [1, 2]⟩ "ab") "u1" =
      .ok ⟨[1, 2], "image/png", "u1_ab.png"⟩ := by
  decide

/-- The Boolean `memS` agrees with list membership. -/
theorem memS_iff (x : String) (l : List String) : memS x l = true ↔ x ∈ l := by
  induction l with
  | nil => simp [memS]
  | cons y rest ih =>
    by_cases h : y = x
    · subst h; simp [memS]
    · have h' : ¬x = y := fun e => h e.symm
      simp [memS, h, h', ih]

/-- Looking up a key after a pointer update: only the updated key changes,
and it keeps its record with the new pointer value. -/
theorem lookupA_setAvatarL (users : List (String × User)) (uid : String)
    (v : Option String) (k : String) :
    lookupA (setAvatarL users uid v) k =
      if k = uid then
        (lookupA users uid).map (fun r => { r with avatar_filename := v })
      else lookupA users k := by
  induction users with
  | nil => by_cases h : k = uid <;> simp [setAvatarL, lookupA, h]
  | cons p rest ih =>
    obtain ⟨k', r⟩ := p
    by_cases h1 : k' = uid
    · subst h1
      by_cases h2 : k' = k
      · subst h2; simp [setAvatarL, lookupA]
      · have h2' : ¬k = k' := fun e => h2 e.symm
        simp [setAvatarL, lookupA, h2, h2']
    · by_cases h2 : k' = k
      · subst h2
        have hk : ¬k' = uid := h1
        simp [setAvatarL, lookupA, hk]
      · simp [setAvatarL, lookupA, h1, h2, ih]

/-- Looking up a key after a deletion: the deleted name is gone and every
other name is untouched. -/
theorem lookupA_eraseBlob (s : List (String × Bytes)) (n k : String) :
    lookupA (eraseBlob s n) k = if k = n then none else lookupA s k := by
  induction s with
  | nil => by_cases h : k = n <;> simp [eraseBlob, lookupA, h]
  | cons p rest ih =>
    obtain ⟨k', v⟩ := p
    by_cases h1 : k' = n
    · subst h1
      by_cases h2 : k = k'
      · subst h2; simp [eraseBlob, lookupA, ih]
      · have h2' : ¬k' = k := fun e => h2 e.symm
        simp [eraseBlob, lookupA, h2, h2', ih]
    · by_cases h2 : k' = k
      · subst h2
        simp [eraseBlob, lookupA, h1]
      · simp [eraseBlob, lookupA, h1, h2, ih]

/-- An unauthenticated call performs no events and raises 401. -/
theorem upload_run_unauth (st : SysState) (token : String) (file : UploadFile)
    (tok : String) (h : lookupA st.users token = none) :
    upload_avatar_run st token file tok = ([], .error .Unauthenticated) := by
  simp [upload_avatar_run, get_current_user, h]

/-- A disallowed media type performs no events and raises 400. -/
theorem upload_run_invalid_type (st : SysState) (token : String)
    (file : UploadFile) (tok : String) (u : User)
    (hu : lookupA st.users token = some u)
    (hct : memS file.content_type ALLOWED_MIME_TYPES = false) :
    upload_avatar_run st token file tok = ([], .error .InvalidMediaType) := by
  simp [upload_avatar_run, get_current_user, hu, hct]

/-- An oversized payload of an accepted type performs no events and
raises 413. -/
theorem upload_run_too_large (st : SysState) (token : String)
    (file : UploadFile) (tok : String) (u : User)
    (hu : lookupA st.users token = some u)
    (hct : memS file.content_type ALLOWED_MIME_TYPES = true)
    (hsz : MAX_AVATAR_SIZE < file.contents.length) :
    upload_avatar_run st token file tok = ([], .error .PayloadTooLarge) := by
  simp [upload_avatar_run, get_current_user, hu, hct, hsz]

/-- A valid authenticated upload performs, in order: eviction of the old
blob when one was recorded, the write of the new blob, and the pointer
swap; it reports 201. -/
theorem upload_run_success (st : SysState) (token : String)
    (file : UploadFile) (tok : String) (u : User)
    (hu : lookupA st.users token = some u)
    (hct : memS file.content_type ALLOWED_MIME_TYPES = true)
    (hsz : file.contents.length ≤ MAX_AVATAR_SIZE) :
    upload_avatar_run st token file tok =
      ((match oldPointer st u.id with
         | some old => [Ev.evict old]
         | none => []) ++
        [Ev.storeBlob (newName u file tok) file.contents,
         Ev.setPtr u.id (some (newName u file tok))],
       .ok ⟨"Avatar uploaded successfully.",
            "/users/" ++ u.id ++ "/avatar", u.id⟩) := by
  have hsz' : ¬MAX_AVATAR_SIZE < file.contents.length := Nat.not_lt.mpr hsz
  simp [upload_avatar_run, get_current_user, hu, hct, hsz', newName]

/-- The state left by a valid authenticated upload: the pointer of the
resolved user is swapped to the new name, the new blob carries the payload
bytes, and the previously recorded blob has been deleted. -/
theorem upload_final_success (st : SysState) (token : String)
    (file : UploadFile) (tok : String) (u : User)
    (hu : lookupA st.users token = some u)
    (hct : memS file.content_type ALLOWED_MIME_TYPES = true)
    (hsz : file.contents.length ≤ MAX_AVATAR_SIZE) :
    upload_final st token file tok =
      { users := setAvatarL st.users u.id (some (newName u file tok)),
        storage :=
          (newName u file tok, file.contents) ::
            eraseBlob
              (match oldPointer st u.id with
                | some old => eraseBlob st.storage old
                | none => st.storage)
              (newName u file tok) } := by
  rw [upload_final, upload_run_success st token file tok u hu hct hsz]
  cases h : oldPointer st u.id <;> simp [apply_events, applyEv]

/-- Two suffixes of the same list with the same length are equal. -/
theorem suffix_eq_of_length {α : Type} {l₂ l₃ L : List α}
    (h₂ : l₂ <:+ L) (h₃ : l₃ <:+ L) (hlen : l₂.length = l₃.length) :
    l₂ = l₃ := by
  obtain ⟨t₂, ht₂⟩ := h₂
  obtain ⟨t₃, ht₃⟩ := h₃
  have ht : t₂ ++ l₂ = t₃ ++ l₃ := by rw [ht₂, ht₃]
  have hl : t₂.length = t₃.length := by
    have := congrArg List.length ht
    simp at this
    omega
  exact (List.append_inj ht hl).2

/-- The Boolean `strEndsWith` unpacked to the suffix relation on character lists. -/
theorem strEndsWith_iff (s suf : String) :
    strEndsWith s suf = true ↔ suf.data <:+ s.data := by
  simp [strEndsWith]

/-- Appending one of the three accepted extensions, only `.png` makes the
result end with `.png`. -/
theorem endsWith_png_of_ext (pre e : String)
    (he : e = ".png" ∨ e = ".jpg" ∨ e = ".jpeg") :
    (strEndsWith (pre ++ e) ".png" = true) ↔ e = ".png" := by
  have hdata : (pre ++ e).data = pre.data ++ e.data := String.data_append pre e
  constructor
  · intro h
    have hs : ".png".data <:+ pre.data ++ e.data := by
      rw [← hdata]; exact (strEndsWith_iff _ _).mp h
    rcases he with rfl | rfl | rfl
    · rfl
    · exfalso
      have h2 : ".jpg".data <:+ pre.data ++ ".jpg".data := List.suffix_append _ _
      have heq : ".png".data = ".jpg".data :=
        suffix_eq_of_length hs h2 (by decide)
      exact absurd (String.ext heq) (by decide)
    · exfalso
      have h1 : "jpeg".data <:+ ".jpeg".data := by decide
      have h2 : "jpeg".data <:+ pre.data ++ ".jpeg".data :=
        h1.trans (List.suffix_append _ _)
      have heq : ".png".data = "jpeg".data :=
        suffix_eq_of_length hs h2 (by decide)
      exact absurd heq (by decide)
  · intro h
    subst h
    rw [strEndsWith_iff, hdata]
    exact List.suffix_append _ _

/-- The normalized extension is always one of the three accepted ones. -/
theorem safe_ext_cases (filename ct : String) :
    safe_ext filename ct = ".png" ∨ safe_ext filename ct = ".jpg" ∨
      safe_ext filename ct = ".jpeg" := by
  unfold safe_ext
  by_cases h : memS (strLower (splitext_ext filename)) [".png", ".jpg", ".jpeg"] = true
  · rw [if_pos h]
    have := (memS_iff _ _).mp h
    simpa using this
  · rw [if_neg (by simpa using h)]
    by_cases hc : ct = "image/jpeg" <;> simp [hc]

/-- A generated blob name decomposes after the user id. -/
theorem newName_decomp (u : User) (file : UploadFile) (tok : String) :
    newName u file tok =
      u.id ++ "_" ++ tok ++ safe_ext file.filename file.content_type := rfl

/-- A generated blob name is never the empty string. -/
theorem newName_ne_empty (u : User) (file : UploadFile) (tok : String) :
    newName u file tok ≠ "" := by
  intro h
  have hd := congrArg String.data h
  rw [newName] at hd
  simp [String.data_append] at hd

/-- Distinct uniqueifying tokens of equal length give distinct blob names,
whatever extensions are attached. -/
theorem name_inj (uid t₁ t₂ e₁ e₂ : String)
    (hlen : t₁.length = t₂.length) (hne : t₁ ≠ t₂) :
    uid ++ "_" ++ t₁ ++ e₁ ≠ uid ++ "_" ++ t₂ ++ e₂ := by
  intro h
  apply hne
  have hd := congrArg String.data h
  simp only [String.data_append] at hd
  rw [List.append_assoc, List.append_assoc, List.append_assoc,
      List.append_assoc] at hd
  have hd1 := List.append_cancel_left hd
  have hd2 := List.append_cancel_left hd1
  have hlen' : t₁.data.length = t₂.data.length := hlen
  exact String.ext (List.append_inj hd2 hlen').1

/-- Membership in the allow-list, spelled out. -/
theorem mem_allowed_iff (x : String) :
    x ∈ ALLOWED_MIME_TYPES ↔ (x = "image/jpeg" ∨ x = "image/png") := by
  simp [ALLOWED_MIME_TYPES]

/-- The type `image/png` is allowed. -/
theorem png_allowed : "image/png" ∈ ALLOWED_MIME_TYPES :=
  (mem_allowed_iff _).mpr (Or.inr rfl)

/-- The type `image/jpeg` is allowed. -/
theorem jpeg_allowed : "image/jpeg" ∈ ALLOWED_MIME_TYPES :=
  (mem_allowed_iff _).mpr (Or.inl rfl)

/-- The type `image/gif` is not allowed. -/
theorem gif_not_allowed : "image/gif" ∉ ALLOWED_MIME_TYPES := by
  rw [mem_allowed_iff]; decide

/-- C1: the claim asserts that the old blob is evicted only after the
pointer swap, so that at every intermediate point a set pointer references
an existing blob.  In the code the eviction happens first (main.py lines
114-121 precede lines 123-125), so right after the eviction the pointer of
`u1` still references the now-deleted old blob: the invariant fails at an
intermediate state of a perfectly ordinary upload. -/
theorem C1_counterexample :
    ¬∀ s ∈ uploadTrace st1 "u1" ⟨"new.png", "image/png", [1]⟩ "feedc0de",
        pointerOkB s = true := by
  decide

/-- C1 (amended): during an upload by a user who already has an avatar the
old blob is evicted first, before the new blob is persisted and before the
Directory pointer is swapped; once the operation completes, the pointer
references the newly persisted blob, which exists in storage.  In the
window between eviction and pointer swap the set pointer references a blob
absent from storage. -/
theorem C1_evict_before_swap (st : SysState) (token : String)
    (file : UploadFile) (tok : String) (u : User) (old : String)
    (hu : lookupA st.users token = some u)
    (hold : oldPointer st u.id = some old)
    (hct : memS file.content_type ALLOWED_MIME_TYPES = true)
    (hsz : file.contents.length ≤ MAX_AVATAR_SIZE) :
    (upload_avatar_run st token file tok).1 =
      [Ev.evict old, Ev.storeBlob (newName u file tok) file.contents,
       Ev.setPtr u.id (some (newName u file tok))] ∧
    lookupA (upload_final st token file tok).storage (newName u file tok) =
      some file.contents ∧
    ∃ u', lookupA (upload_final st token file tok).users u.id = some u' ∧
      u'.avatar_filename = some (newName u file tok) := by
  refine ⟨?_, ?_, ?_⟩
  · rw [upload_run_success st token file tok u hu hct hsz]
    simp [hold]
  · rw [upload_final_success st token file tok u hu hct hsz]
    simp [lookupA]
  · rw [upload_final_success st token file tok u hu hct hsz]
    cases hr : lookupA st.users u.id with
    | none => simp [oldPointer, hr] at hold
    | some r =>
      refine ⟨{ r with avatar_filename := some (newName u file tok) }, ?_, rfl⟩
      simp [lookupA_setAvatarL, hr]

/-- Witness for C1's amended theorem at a concrete state. -/
theorem C1_evict_before_swap_witness :
    (upload_avatar_run st1 "u1" ⟨"new.png", "image/png", [1]⟩ "ab").1 =
      [Ev.evict "u1_old.png", Ev.storeBlob "u1_ab.png" [1],
       Ev.setPtr "u1" (some "u1_ab.png")] ∧
    lookupA (upload_final st1 "u1" ⟨"new.png", "image/png", [1]⟩ "ab").storage
        "u1_ab.png" = some [1] ∧
    ∃ u', lookupA (upload_final st1 "u1" ⟨"new.png", "image/png", [1]⟩ "ab").users
        "u1" = some u' ∧ u'.avatar_filename = some "u1_ab.png" :=
  C1_evict_before_swap st1 "u1" ⟨"new.png", "image/png", [1]⟩ "ab"
    ⟨"u1", "alice", some "u1_old.png"⟩ "u1_old.png" (by decide) (by decide)
    (by decide) (by decide)

/-- C2: a rejected upload (unknown credential, disallowed media type, or
oversized payload) performs no persistent-mutation event at all, so the
final state is the initial state: no blob is created or deleted and no
user's pointer changes. -/
theorem C2_rejected_upload_no_mutation (st : SysState) (token : String)
    (file : UploadFile) (tok : String) (e : UploadError)
    (h : (upload_avatar_run st token file tok).2 = .error e) :
    (upload_avatar_run st token file tok).1 = [] ∧
    upload_final st token file tok = st := by
  have hev : (upload_avatar_run st token file tok).1 = [] := by
    cases hu : lookupA st.users token with
    | none => rw [upload_run_unauth st token file tok hu]
    | some u =>
      cases hct : memS file.content_type ALLOWED_MIME_TYPES with
      | false => rw [upload_run_invalid_type st token file tok u hu hct]
      | true =>
        by_cases hsz : file.contents.length ≤ MAX_AVATAR_SIZE
        · rw [upload_run_success st token file tok u hu hct hsz] at h
          simp at h
        · rw [upload_run_too_large st token file tok u hu hct
            (Nat.not_le.mp hsz)]
  exact ⟨hev, by rw [upload_final, hev]; rfl⟩

/-- Witness for C2: an unauthenticated upload attempt leaves the initial
state untouched. -/
theorem C2_rejected_upload_no_mutation_witness :
    (upload_avatar_run initState "zzz" ⟨"a.png", "image/png", [1]⟩ "ab").1 =
      [] ∧
    upload_final initState "zzz" ⟨"a.png", "image/png", [1]⟩ "ab" =
      initState :=
  C2_rejected_upload_no_mutation initState "zzz" ⟨"a.png", "image/png", [1]⟩
    "ab" .Unauthenticated (by decide)

/-- C3: for an authenticated caller the media-type check runs before the
size check — a disallowed declared type yields `InvalidMediaType` whatever
the payload length, and an allowed type with an oversized payload yields
`PayloadTooLarge`. -/
theorem C3_type_check_precedes_size (st : SysState) (token : String)
    (file : UploadFile) (tok : String) (u : User)
    (hu : lookupA st.users token = some u) :
    (file.content_type ∉ ALLOWED_MIME_TYPES →
      (upload_avatar_run st token file tok).2 = .error .InvalidMediaType) ∧
    (file.content_type ∈ ALLOWED_MIME_TYPES →
      MAX_AVATAR_SIZE < file.contents.length →
      (upload_avatar_run st token file tok).2 = .error .PayloadTooLarge) := by
  constructor
  · intro hct
    have hct' : memS file.content_type ALLOWED_MIME_TYPES = false :=
      Bool.eq_false_iff.mpr (fun h => hct ((memS_iff _ _).mp h))
    rw [upload_run_invalid_type st token file tok u hu hct']
  · intro hct hsz
    rw [upload_run_too_large st token file tok u hu ((memS_iff _ _).mpr hct)
      hsz]

/-- Witness for C3: a GIF is rejected for its type, an oversized PNG for
its size. -/
theorem C3_type_check_precedes_size_witness :
    (upload_avatar_run initState "u1" ⟨"a.gif", "image/gif", [1]⟩ "ab").2 =
      .error .InvalidMediaType ∧
    (upload_avatar_run initState "u1"
        ⟨"a.png", "image/png", List.replicate 2097153 0⟩ "ab").2 =
      .error .PayloadTooLarge :=
  ⟨(C3_type_check_precedes_size initState "u1" ⟨"a.gif", "image/gif", [1]⟩
      "ab" ⟨"u1", "alice", none⟩ (by decide)).1 gif_not_allowed,
   (C3_type_check_precedes_size initState "u1"
      ⟨"a.png", "image/png", List.replicate 2097153 0⟩ "ab"
      ⟨"u1", "alice", none⟩ (by decide)).2 png_allowed
     (by rw [List.length_replicate]; decide)⟩

/-- C6: the ceiling is exactly 2097152 bytes and rejection is strict — an
authenticated upload of an accepted type fails `PayloadTooLarge` exactly
when the payload length strictly exceeds 2097152, and a payload of exactly
2097152 bytes passes the size check (the upload succeeds). -/
theorem C6_size_ceiling_strict (st : SysState) (token : String)
    (file : UploadFile) (tok : String) (u : User)
    (hu : lookupA st.users token = some u)
    (hct : file.content_type ∈ ALLOWED_MIME_TYPES) :
    MAX_AVATAR_SIZE = 2097152 ∧
    ((upload_avatar_run st token file tok).2 = .error .PayloadTooLarge ↔
      2097152 < file.contents.length) ∧
    (file.contents.length = 2097152 →
      ∃ resp, (upload_avatar_run st token file tok).2 = .ok resp) := by
  have hmax : MAX_AVATAR_SIZE = 2097152 := rfl
  have hct' := (memS_iff _ _).mpr hct
  refine ⟨hmax, ⟨?_, ?_⟩, ?_⟩
  · intro h
    by_contra hlt
    have hsz : file.contents.length ≤ MAX_AVATAR_SIZE := by
      rw [hmax]; omega
    rw [upload_run_success st token file tok u hu hct' hsz] at h
    simp at h
  · intro h
    rw [upload_run_too_large st token file tok u hu hct' (by rw [hmax]; exact h)]
  · intro h
    exact ⟨⟨"Avatar uploaded successfully.", "/users/" ++ u.id ++ "/avatar",
        u.id⟩, by
      rw [upload_run_success st token file tok u hu hct' (by rw [hmax, h])]⟩

/-- Witness for C6 at a concrete authenticated upload. -/
theorem C6_size_ceiling_strict_witness :
    MAX_AVATAR_SIZE = 2097152 ∧
    ((upload_avatar_run initState "u1" ⟨"a.png", "image/png", [1]⟩ "ab").2 =
        .error .PayloadTooLarge ↔
      2097152 < (⟨"a.png", "image/png", [1]⟩ : UploadFile).contents.length) ∧
    ((⟨"a.png", "image/png", [1]⟩ : UploadFile).contents.length = 2097152 →
      ∃ resp, (upload_avatar_run initState "u1" ⟨"a.png", "image/png", [1]⟩
        "ab").2 = .ok resp) :=
  C6_size_ceiling_strict initState "u1" ⟨"a.png", "image/png", [1]⟩ "ab"
    ⟨"u1", "alice", none⟩ (by decide) png_allowed

/-- C4: the claim asserts the retrieved media type matches the uploaded
image kind (the declared media type).  The code stores the extension found
in the file name when it is an accepted one, and retrieval infers the
media type from that stored extension alone — so declaring `image/jpeg`
while naming the file `a.png` yields a retrieval with `image/png`. -/
theorem C4_counterexample :
    get_user_avatar
        (upload_final initState "u1" ⟨"a.png", "image/jpeg", [1, 2, 3]⟩ "ab")
        "u1" =
      .ok ⟨[1, 2, 3], "image/png", "u1_ab.png"⟩ ∧
    ("image/png" : String) ≠ "image/jpeg" := by
  decide

/-- C4 (amended): for every accepted authenticated upload, an immediate
retrieval returns exactly the uploaded bytes under the generated blob name;
the returned media type is `image/png` when the stored extension is `.png`
and `image/jpeg` otherwise, so it matches the declared media type except
when the original file name carries a conflicting accepted extension. -/
theorem C4_upload_then_retrieve (st : SysState) (token : String)
    (file : UploadFile) (tok : String) (u : User)
    (hu : lookupA st.users token = some u)
    (hid : u.id = token)
    (hct : file.content_type ∈ ALLOWED_MIME_TYPES)
    (hsz : file.contents.length ≤ MAX_AVATAR_SIZE) :
    get_user_avatar (upload_final st token file tok) u.id =
      .ok ⟨file.contents,
           if safe_ext file.filename file.content_type = ".png"
             then "image/png" else "image/jpeg",
           newName u file tok⟩ := by
  have hct' := (memS_iff _ _).mpr hct
  have hu' : lookupA st.users u.id = some u := by rw [hid]; exact hu
  have hne := newName_ne_empty u file tok
  have hends : strEndsWith (newName u file tok) ".png" = true ↔
      safe_ext file.filename file.content_type = ".png" := by
    rw [newName_decomp]
    exact endsWith_png_of_ext (u.id ++ "_" ++ tok)
      (safe_ext file.filename file.content_type) (safe_ext_cases _ _)
  have hlooku :
      lookupA (upload_final st token file tok).users u.id =
        some { u with avatar_filename := some (newName u file tok) } := by
    rw [upload_final_success st token file tok u hu hct' hsz]
    simp [lookupA_setAvatarL, hu']
  have hlooks :
      lookupA (upload_final st token file tok).storage (newName u file tok) =
        some file.contents := by
    rw [upload_final_success st token file tok u hu hct' hsz]
    simp [lookupA]
  rw [get_user_avatar, get_user_by_id, hlooku]
  simp only [hne, if_neg, hlooks]
  by_cases hx : safe_ext file.filename file.content_type = ".png"
  · have h1 : strEndsWith (newName u file tok) ".png" = true := hends.mpr hx
    simp [h1, hx]
  · have h1 : strEndsWith (newName u file tok) ".png" = false :=
      Bool.eq_false_iff.mpr (fun hh => hx (hends.mp hh))
    simp [h1, hx]

/-- Witness for C4's amended theorem. -/
theorem C4_upload_then_retrieve_witness :
    get_user_avatar
        (upload_final initState "u1" ⟨"b.jpg", "image/jpeg", [5]⟩ "cd")
        "u1" =
      .ok ⟨[5],
           if safe_ext "b.jpg" "image/jpeg" = ".png"
             then "image/png" else "image/jpeg",
           newName ⟨"u1", "alice", none⟩ ⟨"b.jpg", "image/jpeg", [5]⟩ "cd"⟩ :=
  C4_upload_then_retrieve initState "u1" ⟨"b.jpg", "image/jpeg", [5]⟩ "cd"
    ⟨"u1", "alice", none⟩ (by decide) rfl jpeg_allowed (by decide)

/-- C7: the claim asserts that an accepted original extension is stored
as-is.  The code lower-cases the original extension before both the check
and the reuse (main.py line 109), so `PIC.PNG` is stored with `.png`, not
with its original extension `.PNG`. -/
theorem C7_counterexample :
    (upload_avatar_run initState "u1" ⟨"PIC.PNG", "image/png", [1]⟩ "ab").1 =
      [Ev.storeBlob "u1_ab.png" [1], Ev.setPtr "u1" (some "u1_ab.png")] ∧
    splitext_ext "PIC.PNG" = ".PNG" ∧
    ("u1_ab.png" : String) ≠ "u1_ab" ++ ".PNG" := by
  decide

/-- C7 (amended): for every accepted upload the stored extension is the
lower-cased original extension when that lower-cased form is one of
`.png`, `.jpg`, `.jpeg`; otherwise it is derived from the declared media
type — `.jpg` for `image/jpeg` and `.png` for anything else (`image/png`
being the only other accepted type). -/
theorem C7_stored_extension (st : SysState) (token : String)
    (file : UploadFile) (tok : String) (u : User)
    (hu : lookupA st.users token = some u)
    (hct : file.content_type ∈ ALLOWED_MIME_TYPES)
    (hsz : file.contents.length ≤ MAX_AVATAR_SIZE) :
    ∃ E, (upload_avatar_run st token file tok).1 =
      (match oldPointer st u.id with
        | some old => [Ev.evict old]
        | none => []) ++
      [Ev.storeBlob (u.id ++ "_" ++ tok ++ E) file.contents,
       Ev.setPtr u.id (some (u.id ++ "_" ++ tok ++ E))] ∧
    E = (if memS (strLower (splitext_ext file.filename))
            [".png", ".jpg", ".jpeg"] = true
          then strLower (splitext_ext file.filename)
          else if file.content_type = "image/jpeg" then ".jpg" else ".png") := by
  refine ⟨safe_ext file.filename file.content_type, ?_, rfl⟩
  rw [upload_run_success st token file tok u hu ((memS_iff _ _).mpr hct) hsz]
  exact rfl

/-- Witness for C7's amended theorem: the `PIC.PNG` upload again. -/
theorem C7_stored_extension_witness :
    ∃ E, (upload_avatar_run initState "u1" ⟨"PIC.PNG", "image/png", [1]⟩
        "ab").1 =
      (match oldPointer initState "u1" with
        | some old => [Ev.evict old]
        | none => []) ++
      [Ev.storeBlob ("u1" ++ "_" ++ "ab" ++ E) [1],
       Ev.setPtr "u1" (some ("u1" ++ "_" ++ "ab" ++ E))] ∧
    E = (if memS (strLower (splitext_ext "PIC.PNG"))
            [".png", ".jpg", ".jpeg"] = true
          then strLower (splitext_ext "PIC.PNG")
          else if ("image/png" : String) = "image/jpeg" then ".jpg"
            else ".png") :=
  C7_stored_extension initState "u1" ⟨"PIC.PNG", "image/png", [1]⟩ "ab"
    ⟨"u1", "alice", none⟩ (by decide) png_allowed (by decide)

/-- C8: retrieval fails with exactly one of three pairwise-distinct errors,
decided in order — unknown user id gives `UserNotFound`; a known user with
no pointer gives `NoAvatarSet`; a set (non-empty) pointer whose blob is
absent from storage gives `BlobMissing`. -/
theorem C8_retrieve_error_order (st : SysState) (uid : String) :
    (lookupA st.users uid = none →
      get_user_avatar st uid = .error .UserNotFound) ∧
    (∀ u, lookupA st.users uid = some u → u.avatar_filename = none →
      get_user_avatar st uid = .error .NoAvatarSet) ∧
    (∀ u f, lookupA st.users uid = some u → u.avatar_filename = some f →
      f ≠ "" → lookupA st.storage f = none →
      get_user_avatar st uid = .error .BlobMissing) ∧
    (RetrieveError.UserNotFound ≠ RetrieveError.NoAvatarSet ∧
     RetrieveError.NoAvatarSet ≠ RetrieveError.BlobMissing ∧
     RetrieveError.UserNotFound ≠ RetrieveError.BlobMissing) := by
  refine ⟨?_, ?_, ?_, by decide, by decide, by decide⟩
  · intro h
    simp [get_user_avatar, get_user_by_id, h]
  · intro u hu hptr
    simp [get_user_avatar, get_user_by_id, hu, hptr]
  · intro u f hu hptr hne hstore
    simp [get_user_avatar, get_user_by_id, hu, hptr, hne, hstore]

/-- Witness for C8: the three failures at concrete states, including a
stale pointer reported as `BlobMissing`, distinct from `NoAvatarSet`. -/
theorem C8_retrieve_error_order_witness :
    get_user_avatar initState "nope" = .error .UserNotFound ∧
    get_user_avatar initState "u2" = .error .NoAvatarSet ∧
    get_user_avatar st2 "u1" = .error .BlobMissing :=
  ⟨(C8_retrieve_error_order initState "nope").1 (by decide),
   (C8_retrieve_error_order initState "u2").2.1 ⟨"u2", "bob", none⟩
     (by decide) rfl,
   (C8_retrieve_error_order st2 "u1").2.2.1 ⟨"u1", "alice", some "u1_gone.png"⟩
     "u1_gone.png" (by decide) rfl (by decide) (by decide)⟩

/-- C10: a successful upload by the resolved user changes only that user's
state — every other directory key reads unchanged; the resolved user's
record gets the new pointer; the new blob (named for that user) holds the
payload; every blob other than the new name and the user's old pointer is
untouched; and the old pointer's blob (when distinct from the new name) is
deleted. -/
theorem C10_upload_frame (st : SysState) (token : String) (file : UploadFile)
    (tok : String) (u : User) (resp : AvatarUploadResponse)
    (hu : lookupA st.users token = some u)
    (hok : (upload_avatar_run st token file tok).2 = .ok resp) :
    (∀ k, k ≠ u.id →
      lookupA (upload_final st token file tok).users k =
        lookupA st.users k) ∧
    lookupA (upload_final st token file tok).users u.id =
      (lookupA st.users u.id).map
        (fun r => { r with avatar_filename := some (newName u file tok) }) ∧
    lookupA (upload_final st token file tok).storage (newName u file tok) =
      some file.contents ∧
    (∀ b, b ≠ newName u file tok → oldPointer st u.id ≠ some b →
      lookupA (upload_final st token file tok).storage b =
        lookupA st.storage b) ∧
    (∀ b, oldPointer st u.id = some b → b ≠ newName u file tok →
      lookupA (upload_final st token file tok).storage b = none) := by
  have hct : memS file.content_type ALLOWED_MIME_TYPES = true := by
    by_contra hc
    rw [upload_run_invalid_type st token file tok u hu
      (Bool.eq_false_iff.mpr hc)] at hok
    simp at hok
  have hsz : file.contents.length ≤ MAX_AVATAR_SIZE := by
    by_contra hs
    rw [upload_run_too_large st token file tok u hu hct
      (Nat.not_le.mp hs)] at hok
    simp at hok
  have hfin := upload_final_success st token file tok u hu hct hsz
  refine ⟨?_, ?_, ?_, ?_, ?_⟩
  · intro k hk
    rw [hfin]
    simp [lookupA_setAvatarL, hk]
  · rw [hfin]
    simp [lookupA_setAvatarL]
  · rw [hfin]
    simp [lookupA]
  · intro b hb hob
    have hb' : ¬newName u file tok = b := fun e => hb e.symm
    rw [hfin]
    cases ho : oldPointer st u.id with
    | none => simp [lookupA, hb, hb', lookupA_eraseBlob]
    | some old =>
      have hbo : ¬b = old := fun e => hob (by rw [ho, e])
      simp [lookupA, hb, hb', hbo, lookupA_eraseBlob]
  · intro b hob hbnm
    have hb' : ¬newName u file tok = b := fun e => hbnm e.symm
    rw [hfin, hob]
    simp [lookupA, hb', hbnm, lookupA_eraseBlob]

/-- Witness for C10 at a concrete state where the user already had an
avatar. -/
theorem C10_upload_frame_witness :
    (∀ k, k ≠ "u1" →
      lookupA (upload_final st1 "u1" ⟨"new.png", "image/png", [1]⟩ "ab").users
          k =
        lookupA st1.users k) ∧
    lookupA (upload_final st1 "u1" ⟨"new.png", "image/png", [1]⟩ "ab").users
        "u1" =
      (lookupA st1.users "u1").map
        (fun r => { r with avatar_filename := some "u1_ab.png" }) ∧
    lookupA (upload_final st1 "u1" ⟨"new.png", "image/png", [1]⟩ "ab").storage
        "u1_ab.png" = some [1] ∧
    (∀ b, b ≠ "u1_ab.png" → oldPointer st1 "u1" ≠ some b →
      lookupA (upload_final st1 "u1" ⟨"new.png", "image/png", [1]⟩
          "ab").storage b =
        lookupA st1.storage b) ∧
    (∀ b, oldPointer st1 "u1" = some b → b ≠ "u1_ab.png" →
      lookupA (upload_final st1 "u1" ⟨"new.png", "image/png", [1]⟩
          "ab").storage b = none) :=
  C10_upload_frame st1 "u1" ⟨"new.png", "image/png", [1]⟩ "ab"
    ⟨"u1", "alice", some "u1_old.png"⟩
    ⟨"Avatar uploaded successfully.", "/users/u1/avatar", "u1"⟩
    (by decide) (by decide)

/-- A blob name shaped `id ++ "_" ++ token ++ extension` is non-empty. -/
theorem name_ne_empty (a t e : String) : a ++ "_" ++ t ++ e ≠ "" := by
  intro h
  have hd := congrArg String.data h
  simp [String.data_append] at hd

/-- Splitting one upload off the end of a sequence. -/
theorem uploadSeq_concat (st : SysState) (token : String)
    (l : List (UploadFile × String)) (p : UploadFile × String) :
    uploadSeq st token (l ++ [p]) =
      upload_final (uploadSeq st token l) token p.1 p.2 := by
  obtain ⟨f, t⟩ := p
  induction l generalizing st with
  | nil => rfl
  | cons q rest ih =>
    obtain ⟨qf, qt⟩ := q
    simp [uploadSeq, ih]

/-- The running invariant of a sequence of valid uploads through one
credential: the credential still resolves to a record whose id is the
credential; after a non-empty sequence the pointer holds the last upload's
generated name and that blob holds the last payload; and the blobs of all
uploads before the last have been deleted. -/
theorem uploadSeq_invariant (token : String)
    (files : List (UploadFile × String)) :
    (∀ p ∈ files, memS p.1.content_type ALLOWED_MIME_TYPES = true ∧
      p.1.contents.length ≤ MAX_AVATAR_SIZE) →
    (∀ p ∈ files, p.2.length = 32) →
    files.Pairwise (fun a b => a.2 ≠ b.2) →
    ∀ st u0, lookupA st.users token = some u0 → u0.id = token →
      (∃ u, lookupA (uploadSeq st token files).users token = some u ∧
        u.id = token) ∧
      (∀ q, files.getLast? = some q →
        ∃ u, lookupA (uploadSeq st token files).users token = some u ∧
          u.avatar_filename = some (nameAt token q) ∧
          lookupA (uploadSeq st token files).storage (nameAt token q) =
            some q.1.contents) ∧
      (∀ q ∈ files.dropLast,
        lookupA (uploadSeq st token files).storage (nameAt token q) =
          none) := by
  induction files using List.reverseRecOn with
  | nil =>
    intro _ _ _ st u0 hu hid
    refine ⟨⟨u0, hu, hid⟩, ?_, ?_⟩
    · intro q hq
      simp at hq
    · intro q hq
      simp at hq
  | append_singleton l p ih =>
    intro hvalid hlen hdist st u0 hu hid
    have hvl : ∀ q ∈ l, memS q.1.content_type ALLOWED_MIME_TYPES = true ∧
        q.1.contents.length ≤ MAX_AVATAR_SIZE :=
      fun q hq => hvalid q (List.mem_append.mpr (Or.inl hq))
    have hll : ∀ q ∈ l, q.2.length = 32 :=
      fun q hq => hlen q (List.mem_append.mpr (Or.inl hq))
    have hpa := List.pairwise_append.mp hdist
    have hsep : ∀ q ∈ l, q.2 ≠ p.2 :=
      fun q hq => hpa.2.2 q hq p (by simp)
    obtain ⟨⟨ul, hul, hidl⟩, hlast, hprior⟩ := ih hvl hll hpa.1 st u0 hu hid
    have hpv := hvalid p (List.mem_append.mpr (Or.inr (by simp)))
    have hplen : p.2.length = 32 := hlen p (List.mem_append.mpr (Or.inr (by simp)))
    rw [uploadSeq_concat]
    have hfin := upload_final_success (uploadSeq st token l) token p.1 p.2 ul
      hul hpv.1 hpv.2
    have hname : newName ul p.1 p.2 = nameAt token p := by
      simp [newName, nameAt, hidl]
    refine ⟨?_, ?_, ?_⟩
    · refine ⟨{ ul with avatar_filename := some (newName ul p.1 p.2) }, ?_, hidl⟩
      have hul' : lookupA (uploadSeq st token l).users ul.id = some ul := by
        rw [hidl]; exact hul
      rw [hfin]
      rw [lookupA_setAvatarL, if_pos hidl.symm, hul']
      rfl
    · intro q hq
      rw [List.getLast?_concat] at hq
      obtain rfl : p = q := Option.some.inj hq
      refine ⟨{ ul with avatar_filename := some (newName ul p.1 p.2) }, ?_, ?_, ?_⟩
      · have hul' : lookupA (uploadSeq st token l).users ul.id = some ul := by
          rw [hidl]; exact hul
        rw [hfin]
        rw [lookupA_setAvatarL, if_pos hidl.symm, hul']
        rfl
      · simp [hname]
      · rw [hfin, ← hname]
        simp [lookupA]
    · intro q hq
      rw [List.dropLast_concat] at hq
      have hqnm : nameAt token q ≠ newName ul p.1 p.2 := by
        rw [hname]
        exact name_inj token q.2 p.2 _ _ (by rw [hll q hq, hplen]) (hsep q hq)
      have hqnm' : ¬newName ul p.1 p.2 = nameAt token q :=
        fun e => hqnm e.symm
      have hlne : l ≠ [] := by
        intro h
        rw [h] at hq
        simp at hq
      cases hgl : l.getLast? with
      | none => exact absurd (List.getLast?_eq_none_iff.mp hgl) hlne
      | some qlast =>
        obtain ⟨u2, hu2, hptr2, hstore2⟩ := hlast qlast hgl
        have hold : oldPointer (uploadSeq st token l) ul.id =
            some (nameAt token qlast) := by
          simp [oldPointer, hidl, hu2, hptr2]
        rw [hfin, hold]
        have hglast : l.getLast hlne = qlast := by
          rw [List.getLast?_eq_getLast l hlne] at hgl
          exact Option.some.inj hgl
        have hsplitl : l.dropLast ++ [qlast] = l := by
          rw [← hglast]
          exact List.dropLast_append_getLast hlne
        have hqmem : q ∈ l.dropLast ++ [qlast] := by rw [hsplitl]; exact hq
        rcases List.mem_append.mp hqmem with hq' | hq'
        · have hnone := hprior q hq'
          by_cases hc : nameAt token q = nameAt token qlast
          · have hqnm2 : ¬newName ul p.1 p.2 = nameAt token qlast := by
              rw [← hc]; exact hqnm'
            simp [lookupA, hqnm', hqnm2, lookupA_eraseBlob, hqnm, hc]
          · simp [lookupA, hqnm', lookupA_eraseBlob, hqnm, hc, hnone]
        · have : q = qlast := by simpa using hq'
          subst this
          simp [lookupA, hqnm', lookupA_eraseBlob, hqnm]

/-- C5: N sequential valid uploads through one credential produce N
pairwise-distinct blob names, each of the form
`{userId}_{hexToken}{extension}` with extension among `.png`, `.jpg`,
`.jpeg`; after the last upload, retrieval returns exactly the last
payload under the last generated name, and the blob of every earlier
upload has been deleted from storage.  (Distinctness holds because the
`uuid4().hex` tokens are 32 characters long and pairwise distinct, which
is what a fresh secure random draw provides.) -/
theorem C5_sequential_uploads (st : SysState) (token : String) (u0 : User)
    (files : List (UploadFile × String))
    (hu : lookupA st.users token = some u0)
    (hid : u0.id = token)
    (hvalid : ∀ p ∈ files, p.1.content_type ∈ ALLOWED_MIME_TYPES ∧
      p.1.contents.length ≤ MAX_AVATAR_SIZE)
    (hlen : ∀ p ∈ files, p.2.length = 32)
    (hhex : ∀ p ∈ files, ∀ c ∈ p.2.data, isHexChar c = true)
    (hdist : files.Pairwise (fun a b => a.2 ≠ b.2)) :
    (files.map (nameAt token)).Pairwise (fun a b => a ≠ b) ∧
    (∀ p ∈ files, ∃ tk e, nameAt token p = token ++ "_" ++ tk ++ e ∧
      (∀ c ∈ tk.data, isHexChar c = true) ∧
      (e = ".png" ∨ e = ".jpg" ∨ e = ".jpeg")) ∧
    (∀ q, files.getLast? = some q →
      ∃ r, get_user_avatar (uploadSeq st token files) token = .ok r ∧
        r.contents = q.1.contents ∧ r.filename = nameAt token q) ∧
    (∀ p ∈ files.dropLast,
      lookupA (uploadSeq st token files).storage (nameAt token p) = none) := by
  have hvalid' : ∀ p ∈ files,
      memS p.1.content_type ALLOWED_MIME_TYPES = true ∧
      p.1.contents.length ≤ MAX_AVATAR_SIZE :=
    fun p hp => ⟨(memS_iff _ _).mpr (hvalid p hp).1, (hvalid p hp).2⟩
  obtain ⟨-, hlast, hprior⟩ :=
    uploadSeq_invariant token files hvalid' hlen hdist st u0 hu hid
  refine ⟨?_, ?_, ?_, hprior⟩
  · rw [List.pairwise_map]
    refine hdist.imp_of_mem ?_
    intro a b ha hb hne
    exact name_inj token a.2 b.2 _ _ (by rw [hlen a ha, hlen b hb]) hne
  · intro p hp
    exact ⟨p.2, safe_ext p.1.filename p.1.content_type, rfl, hhex p hp,
      safe_ext_cases _ _⟩
  · intro q hq
    obtain ⟨u, hu2, hptr, hstore⟩ := hlast q hq
    have hne : nameAt token q ≠ "" := name_ne_empty token q.2 _
    rw [get_user_avatar, get_user_by_id, hu2]
    simp only [hptr, hstore, if_neg hne]
    exact ⟨_, rfl, rfl, rfl⟩

/-- Witness for C5 with two concrete uploads. -/
theorem C5_sequential_uploads_witness :
    (filesW.map (nameAt "u1")).Pairwise (fun a b => a ≠ b) ∧
    (∀ p ∈ filesW, ∃ tk e, nameAt "u1" p = "u1" ++ "_" ++ tk ++ e ∧
      (∀ c ∈ tk.data, isHexChar c = true) ∧
      (e = ".png" ∨ e = ".jpg" ∨ e = ".jpeg")) ∧
    (∀ q, filesW.getLast? = some q →
      ∃ r, get_user_avatar (uploadSeq initState "u1" filesW) "u1" = .ok r ∧
        r.contents = q.1.contents ∧ r.filename = nameAt "u1" q) ∧
    (∀ p ∈ filesW.dropLast,
      lookupA (uploadSeq initState "u1" filesW).storage (nameAt "u1" p) =
        none) :=
  C5_sequential_uploads initState "u1" ⟨"u1", "alice", none⟩ filesW
    (by decide) rfl
    (by
      intro p hp
      simp only [filesW, List.mem_cons, List.not_mem_nil, or_false] at hp
      rcases hp with rfl | rfl
      · exact ⟨png_allowed, by decide⟩
      · exact ⟨jpeg_allowed, by decide⟩)
    (by decide) (by decide) (by decide)

end AvatarApp
